import Mathlib

/-!
Verification of the PolyPlayer module (src/__init__.py): a shallow embedding
of the per-channel queue state machine, the scheduler tick, the upstream
client, and the URL resolution pipeline, together with theorems checking the
natural-language specification against the embedded code.
-/

namespace PolyPlayer

/-- Python list slicing `xs[i:]` for an `int` index `i`: a negative start
counts from the end and is clamped to the list bounds. -/
def sliceFrom {α : Type} (xs : List α) (i : Int) : List α :=
  if 0 ≤ i then xs.drop i.toNat
  else xs.drop ((xs.length : Int) + i).toNat

/-- Python list slicing `xs[:i]` for an `int` index `i`: a negative stop
counts from the end and is clamped to the list bounds. -/
def sliceTo {α : Type} (xs : List α) (i : Int) : List α :=
  if 0 ≤ i then xs.take i.toNat
  else xs.take ((xs.length : Int) + i).toNat

/-- The `ChannelPlayer` state relevant to queue logic (src/__init__.py lines
42-47): the pending queue (items abstracted to their ids), the `now_playing`
field, and the `loop` flag. The transport connection is modelled separately
(see `Transport`). -/
structure ChannelPlayer where
  queue : List String
  nowPlaying : Option String
  loop : Bool
deriving DecidableEq, Repr

/-- The reply sent by the `skip` command (src/__init__.py lines 244-259).
`noSession` and `nothingPlaying` are the two early returns that send the
"Nothing is currently playing" notice (the spec's `NoActiveSession` error
kind); `skipped` is the "Skipped n songs" acknowledgement. -/
inductive SkipReply
  | noSession
  | nothingPlaying
  | skipped (steps : Int)
deriving DecidableEq, Repr

/-- `PolyPlayer.skip` (src/__init__.py lines 244-259) for one channel:
if no player exists or its queue is empty, reply the notice and leave state
unchanged; otherwise reassign `queue = queue[steps:]` and, if loop is
enabled, extend the (already reassigned) queue with its own first `steps`
items, then acknowledge. `now_playing` is never touched. -/
def skip (player : Option ChannelPlayer) (steps : Int) :
    Option ChannelPlayer × SkipReply :=
  match player with
  | none => (none, .noSession)
  | some p =>
    if p.queue = [] then (some p, .nothingPlaying)
    else
      let q1 := sliceFrom p.queue steps
      let q2 := if p.loop then q1 ++ sliceTo q1 steps else q1
      (some { p with queue := q2 }, .skipped steps)

/-- Behaviour of the external voice transport during one tick, per channel
id: the playing/paused status reported by the connection, and whether the
`disconnect` and `play` calls succeed (`false` means the call raises). -/
structure Transport where
  reportsPlaying : Nat → Bool
  reportsPaused : Nat → Bool
  disconnectOk : Nat → Bool
  playOk : Nat → Bool

/-- One scheduler tick, `PolyPlayer.play_queue` (src/__init__.py lines
87-105), iterating a snapshot of the players registry. Per channel: if the
transport reports playing or paused, continue; if the queue is empty,
disconnect and delete the player; otherwise pop the head, re-append it to
the tail when loop is enabled, set `now_playing`, and call `play`. There is
no per-channel exception handler, so a raising transport call propagates
out of the for-loop: the result is the registry as mutated so far (later
channels untouched), the playback commands issued, and the propagated
exception if any. -/
def play_queue (t : Transport) :
    List (Nat × ChannelPlayer) →
      List (Nat × ChannelPlayer) × List (Nat × String) × Option String
  | [] => ([], [], none)
  | (gid, p) :: rest =>
    if t.reportsPlaying gid || t.reportsPaused gid then
      let r := play_queue t rest
      ((gid, p) :: r.1, r.2.1, r.2.2)
    else
      match p.queue with
      | [] =>
        if t.disconnectOk gid then play_queue t rest
        else ((gid, p) :: rest, [], some "disconnect raised")
      | v :: q =>
        let p' : ChannelPlayer :=
          { p with queue := if p.loop then q ++ [v] else q, nowPlaying := some v }
        if t.playOk gid then
          let r := play_queue t rest
          ((gid, p') :: r.1, (gid, v) :: r.2.1, r.2.2)
        else ((gid, p') :: rest, [], some "play raised")

/-- A transport whose connections are neither playing nor paused and whose
calls all succeed. -/
def idleTransport : Transport :=
  ⟨fun _ => false, fun _ => false, fun _ => true, fun _ => true⟩

/-- The `Translator` credential cache fields `_spotify_token` and
`_spotify_token_expires_at` (src/__init__.py lines 343-344), with expiry
instants as integer seconds. -/
structure TokenState where
  token : Option String
  expiresAt : Option Int
deriving DecidableEq, Repr

/-- A response of the credential token-exchange endpoint (src/__init__.py
lines 402-414): the optional `error` field, `access_token`, `expires_in`. -/
structure TokenResp where
  error : Option String
  access_token : String
  expires_in : Int
deriving DecidableEq, Repr

/-- The guard of `Translator.update_spotify_token` (src/__init__.py lines
397-400): `_spotify_token_expires_at is not None and
_spotify_token_expires_at < now + timedelta(minutes=15)`. -/
def expiryGuard (now : Int) (st : TokenState) : Bool :=
  match st.expiresAt with
  | some exp => exp < now + 15 * 60
  | none => false

/-- `Translator.update_spotify_token` (src/__init__.py lines 396-414), with
`datetime.now()` passed in as `now` and the would-be token-exchange response
as `resp`. When the guard holds the function returns early and NO network
call is made; otherwise the exchange is performed (the returned flag is
`true` exactly when the network round trip happened), raising on an
`invalid_client` error. -/
def update_spotify_token (now : Int) (st : TokenState) (resp : TokenResp) :
    Except String (TokenState × Bool) :=
  if expiryGuard now st then .ok (st, false)
  else if resp.error = some "invalid_client" then
    .error "Invalid spotify client id or secret"
  else .ok (⟨some resp.access_token, some (now + resp.expires_in)⟩, true)

/-- A JSON response of the item-by-id endpoint: the optional top-level
`error` field and the remaining payload, abstracted to a string. -/
structure VideoResp where
  error : Option String
  payload : String
deriving DecidableEq, Repr

/-- Python truthiness of `data.get("error")` (src/__init__.py line 298):
the walrus test passes when the field is present and non-empty. -/
def truthyError (r : VideoResp) : Option String :=
  match r.error with
  | some e => if e = "" then none else some e
  | none => none

/-- The `inner` closure of `Invidious.get_video` (src/__init__.py lines
294-300): one lookup, raising `BadResponseError` when the response carries
a truthy `error` field. -/
def get_video_inner (r : VideoResp) : Except String VideoResp :=
  match truthyError r with
  | some e => .error ("Error fetching video: " ++ e)
  | none => .ok r

/-- `Invidious.get_video` (src/__init__.py lines 293-307): call `inner`;
on `BadResponseError` call `inner` once more and propagate its outcome.
Takes the two upstream responses the two lookups would observe and also
returns how many lookups were performed. -/
def get_video (r1 r2 : VideoResp) : Except String VideoResp × Nat :=
  match get_video_inner r1 with
  | .ok d => (.ok d, 1)
  | .error _ => (get_video_inner r2, 2)

/-- Whether an outcome is a success. -/
def isOkE {ε α : Type} : Except ε α → Bool
  | .ok _ => true
  | .error _ => false

/-- Decidable equality of outcomes, so that concrete evaluations of the
embedded fallible operations can be checked by `decide`. -/
instance {ε α : Type} [DecidableEq ε] [DecidableEq α] :
    DecidableEq (Except ε α) := fun a b =>
  match a, b with
  | .ok x, .ok y =>
    if h : x = y then isTrue (by rw [h]) else isFalse (by simp [h])
  | .error x, .error y =>
    if h : x = y then isTrue (by rw [h]) else isFalse (by simp [h])
  | .ok _, .error _ => isFalse (by simp)
  | .error _, .ok _ => isFalse (by simp)

/-- An entry of the `adaptiveFormats` list: the `type` media-type string,
`bitrate`, and `itag` (src/__init__.py lines 320-330). -/
structure AdaptiveFormat where
  type : String
  bitrate : Int
  itag : Nat
deriving DecidableEq, Repr

/-- The metadata consumed by `Invidious.get_audio_url`: `videoId` and the
`adaptiveFormats` list. -/
structure Video where
  videoId : String
  adaptiveFormats : List AdaptiveFormat
deriving DecidableEq, Repr

/-- Python `max(iterable, key=...)`: the first element attaining the maximal
key; `none` on an empty iterable, where CPython raises
`ValueError: max() arg is an empty sequence`. -/
def pyMax {α : Type} (key : α → Int) : List α → Option α
  | [] => none
  | x :: xs =>
    match pyMax key xs with
    | none => some x
    | some y => if key y > key x then some y else some x

/-- Failure modes of `Invidious.get_audio_url`: the bare builtin
`ValueError` raised by `max` on an empty sequence (not an instance of the
module's named `BadResponseError` class, hence not caught by the caller's
handler in `play`), or an explicitly raised `BadResponseError`. -/
inductive UrlFailure
  | valueError (msg : String)
  | badResponse (msg : String)
deriving DecidableEq, Repr

/-- Whether a `get_audio_url` outcome failed through the module's named
`BadResponseError` class (the only failure kind the `play` command handler
catches). -/
def isNamedFailure : Except UrlFailure String → Bool
  | .error (.badResponse _) => true
  | _ => false

/-- Result of the `GET latest_version` request issued for the chosen
format: `response.ok`, `response.reason`, and the final `response.url`. -/
structure FetchResult where
  ok : Bool
  reason : String
  url : String
deriving DecidableEq, Repr

/-- Python `str.startswith`, on the character lists of the strings. -/
def startsWith (p s : String) : Bool :=
  List.isPrefixOf p.toList s.toList

/-- The audio-typed entries of a video's `adaptiveFormats`: those whose
`type` starts with "audio/" (src/__init__.py line 322). -/
def audioFmts (video : Video) : List AdaptiveFormat :=
  video.adaptiveFormats.filter (fun f => startsWith "audio/" f.type)

/-- `Invidious.get_audio_url` (src/__init__.py lines 320-334): pick, via
Python `max`, the highest-bitrate format among those whose `type` starts
with "audio/" (an empty candidate set makes `max` raise the bare
ValueError), then request the playable URL for the chosen
`(videoId, itag)` pair, raising `BadResponseError` when the response is
not ok. -/
def get_audio_url (video : Video) (fetch : String → Nat → FetchResult) :
    Except UrlFailure String :=
  match pyMax (fun f => f.bitrate) (audioFmts video) with
  | none => .error (.valueError "max() arg is an empty sequence")
  | some best =>
    let r := fetch video.videoId best.itag
    if r.ok then .ok r.url
    else .error (.badResponse ("Error fetching audio: " ++ r.reason))

/-- Characters of the id groups `[a-zA-Z0-9_-]` (INVIDIOUS_ID_RE) and
`[0-9a-zA-Z-_]` (YOUTUBE_ID_RE) — the same set. -/
def isIdChar (c : Char) : Bool :=
  c.isAlpha || c.isDigit || c = '_' || c = '-'

/-- ASCII reading of Python `\w`: letters, digits, underscore. (Python's
`\w` also admits further Unicode word characters, which no claim
exercises; they are not modelled.) -/
def isWordChar (c : Char) : Bool :=
  c.isAlpha || c.isDigit || c = '_'

/-- Consume the literal pattern `pat` at the head of `s`, returning the
remainder. -/
def eatLit : List Char → List Char → Option (List Char)
  | [], s => some s
  | _ :: _, [] => none
  | p :: ps, c :: cs => if c = p then eatLit ps cs else none

/-- The suffix pattern `watch\?v=(?P<id>[a-zA-Z0-9_-]+)$` of
`Translator.INVIDIOUS_ID_RE` (src/__init__.py line 352): the literal, then
a nonempty run of id characters reaching the end of the input. -/
def vTail (s : List Char) : Option (List Char) :=
  match eatLit ("watch?v=".toList) s with
  | none => none
  | some b => if b ≠ [] && b.all isIdChar then some b else none

/-- Backtracking of the greedy `.+` of INVIDIOUS_ID_RE over the remainder
of the input: split positions are tried rightmost-first (greedy), `.` does
not cross a newline, and at the chosen position the `vTail` suffix pattern
must match. -/
def invRest : List Char → Option (List Char)
  | [] => none
  | c :: rest =>
    match (if c = '\n' then none else invRest rest) with
    | some b => some b
    | none => vTail (c :: rest)

/-- `Translator.INVIDIOUS_ID_RE` (src/__init__.py line 352) applied with
`re.match`: `.+watch\?v=(?P<id>[a-zA-Z0-9_-]+)$`, anchored at the start,
with at least one leading character consumed by `.+`. -/
def invidiousMatch (s : String) : Option String :=
  match s.toList with
  | [] => none
  | c :: rest =>
    if c = '\n' then none
    else (invRest rest).map (fun l => String.mk l)

/-- The id group `(?P<id>[0-9a-zA-Z-_]+)` of YOUTUBE_ID_RE followed by
`(?:$|&)`: the greedy run of id characters, then end of input or `&`. -/
def idThenEnd (s : List Char) : Option (List Char) :=
  let run := s.takeWhile isIdChar
  if run = [] then none
  else
    match s.dropWhile isIdChar with
    | [] => some run
    | c :: _ => if c = '&' then some run else none

/-- The `youtube\.[a-z]+/watch(?:\?v=|/)` core of YOUTUBE_ID_RE
(src/__init__.py lines 353-364), followed by the id group: the literal
`youtube.`, a nonempty greedy lowercase TLD, `/watch`, then `?v=` or `/`. -/
def ytCore (s : List Char) : Option (List Char) :=
  match eatLit ("youtube.".toList) s with
  | none => none
  | some t =>
    if t.takeWhile Char.isLower = [] then none
    else
      match eatLit ("/watch".toList) (t.dropWhile Char.isLower) with
      | none => none
      | some u =>
        match eatLit ("?v=".toList) u with
        | some w => idThenEnd w
        | none =>
          match eatLit ("/".toList) u with
          | some w => idThenEnd w
          | none => none

/-- The first alternative `(?:www\.)?youtube\.[a-z]+/watch(?:\?v=|/)` of
YOUTUBE_ID_RE with full backtracking over the optional `www.`. -/
def ytBranchA (s : List Char) : Option (List Char) :=
  match eatLit ("www.".toList) s with
  | some t =>
    match ytCore t with
    | some r => some r
    | none => ytCore s
  | none => ytCore s

/-- The second alternative `youtu\.be(?:/watch/*\?v=|/)` of YOUTUBE_ID_RE,
followed by the id group, with backtracking from the `/watch/*\?v=` shape
to the bare `/` shape. -/
def ytBranchB (s : List Char) : Option (List Char) :=
  match eatLit ("youtu.be".toList) s with
  | none => none
  | some t =>
    let alt1 :=
      match eatLit ("/watch".toList) t with
      | none => none
      | some u =>
        match eatLit ("?v=".toList) (u.dropWhile (fun c => c == '/')) with
        | none => none
        | some w => idThenEnd w
    match alt1 with
    | some r => some r
    | none =>
      match eatLit ("/".toList) t with
      | none => none
      | some w => idThenEnd w

/-- `Translator.YOUTUBE_ID_RE` (src/__init__.py lines 353-364) applied with
`re.match`: the scheme `https?://`, then the youtube host alternative or
the youtu.be alternative, then the id group ended by `$` or `&`. -/
def youtubeMatch (s : String) : Option String :=
  match Option.orElse (eatLit ("https://".toList) s.toList)
      (fun _ => eatLit ("http://".toList) s.toList) with
  | none => none
  | some t =>
    match ytBranchA t with
    | some r => some (String.mk r)
    | none => (ytBranchB t).map (fun l => String.mk l)

/-- `Translator.SPOTIFY_ID_RE` (src/__init__.py line 365) applied with
`re.match`: `https?://open\.spotify\.com/track/(?P<id>\w+)`, with the id as
the greedy nonempty run of word characters (no end anchor). -/
def spotifyMatch (s : String) : Option String :=
  match Option.orElse (eatLit ("https://open.spotify.com/track/".toList) s.toList)
      (fun _ => eatLit ("http://open.spotify.com/track/".toList) s.toList) with
  | none => none
  | some t =>
    let run := t.takeWhile isWordChar
    if run = [] then none else some (String.mk run)

/-- Outcome of `Translator.to_invidious_id` (src/__init__.py lines
367-376): an id extracted directly by the first or second matcher, a
handoff to `spotify_to_youtube_id` with the extracted track id (the only
path performing third-party lookups), or `None`. -/
inductive Resolved
  | direct (id : String)
  | viaTrack (trackId : String)
  | invalid
deriving DecidableEq, Repr

/-- `Translator.to_invidious_id` (src/__init__.py lines 367-376): try
INVIDIOUS_ID_RE, then YOUTUBE_ID_RE, then SPOTIFY_ID_RE, in that order;
the first match wins; otherwise return `None`. -/
def to_invidious_id (url : String) : Resolved :=
  match invidiousMatch url with
  | some i => .direct i
  | none =>
    match youtubeMatch url with
    | some i => .direct i
    | none =>
      match spotifyMatch url with
      | some tid => .viaTrack tid
      | none => .invalid

/-- An artist object of the third-party track metadata: its `name`. -/
structure Artist where
  name : String
deriving DecidableEq, Repr

/-- Third-party track metadata: `name` and the `artists` list. -/
structure Track where
  name : String
  artists : List Artist
deriving DecidableEq, Repr

/-- The free-text search query built by `Translator.spotify_to_youtube_id`
(src/__init__.py line 392):
`data["name"] + " by " + " ".join(artist["name"] for artist in data["artists"])`. -/
def spotifySearchQuery (t : Track) : String :=
  t.name ++ " by " ++ String.intercalate " " (t.artists.map (fun a => a.name))

/-- Tail of `Translator.spotify_to_youtube_id` (src/__init__.py lines
392-394) after a successful track fetch: build the query, search, and take
the first result's videoId (`search[0]`, an IndexError when empty). -/
def spotify_to_youtube_id (track : Track) (search : String → List String) :
    Option String :=
  (search (spotifySearchQuery track)).head?

/-- Python `max` never returns `none` on a nonempty list. -/
theorem pyMax_eq_none {α : Type} (key : α → Int) (l : List α)
    (h : pyMax key l = none) : l = [] := by
  cases l with
  | nil => rfl
  | cons a as =>
    simp only [pyMax] at h
    cases hm : pyMax key as with
    | none => simp [hm] at h
    | some b =>
      simp only [hm] at h
      by_cases hk : key b > key a <;> simp [hk] at h

/-- Python `max` returns a member of the list whose key is maximal. -/
theorem pyMax_spec {α : Type} (key : α → Int) :
    ∀ (l : List α) (y : α), pyMax key l = some y →
      y ∈ l ∧ ∀ x ∈ l, key x ≤ key y := by
  intro l
  induction l with
  | nil => intro y h; simp [pyMax] at h
  | cons a as ih =>
    intro y h
    simp only [pyMax] at h
    cases hm : pyMax key as with
    | none =>
      simp only [hm] at h
      cases h
      have has : as = [] := pyMax_eq_none key as hm
      subst has
      exact ⟨List.mem_cons_self a [], by intro x hx; simp at hx; simp [hx]⟩
    | some b =>
      simp only [hm] at h
      obtain ⟨hmem, hmax⟩ := ih b hm
      by_cases hk : key b > key a
      · rw [if_pos hk] at h
        cases h
        refine ⟨List.mem_cons_of_mem a hmem, ?_⟩
        intro x hx
        rcases List.mem_cons.mp hx with rfl | hx'
        · exact le_of_lt hk
        · exact hmax x hx'
      · rw [if_neg hk] at h
        cases h
        refine ⟨List.mem_cons_self a as, ?_⟩
        intro x hx
        rcases List.mem_cons.mp hx with rfl | hx'
        · exact le_refl _
        · exact le_trans (hmax x hx') (not_lt.mp hk)

/-- Claim C1 (code bug): evaluating the embedded `update_spotify_token`.
With a cached token 600 seconds from expiry — inside the 15-minute safety
margin, where the claim demands a fresh token exchange — the code returns
early, performs NO network call, and keeps the near-stale token; with a
cached token 3600 seconds from expiry — valid and outside the margin,
where the claim demands reuse with no round trip — the code performs the
token-exchange network call. The guard on lines 397-400 is inverted. -/
theorem C1_token_cache_inverted :
    update_spotify_token 1000 ⟨some "tok", some 1600⟩ ⟨none, "fresh", 3600⟩ =
      .ok (⟨some "tok", some 1600⟩, false) ∧
    update_spotify_token 1000 ⟨some "tok", some 4600⟩ ⟨none, "fresh", 3600⟩ =
      .ok (⟨some "fresh", some 4600⟩, true) :=
  ⟨rfl, rfl⟩

/-- Claim C2 (code bug): evaluating the embedded `skip` at pending
`["a","b","c"]` with loop enabled and one step. The code leaves pending
`["b","c","b"]` — it extends the already-shortened queue with its own
first item — whereas the claim (and the spec's "re-append exactly the
removed items") demands `drop 1 P ++ take 1 P = ["b","c","a"]`. -/
theorem C2_skip_loop_duplicates :
    skip (some ⟨["a", "b", "c"], some "x", true⟩) 1 =
      (some ⟨["b", "c", "b"], some "x", true⟩, .skipped 1) ∧
    List.drop 1 ["a", "b", "c"] ++ List.take 1 ["a", "b", "c"] =
      ["b", "c", "a"] := by
  constructor <;> decide

/-- Claim C3: a channel with pending `[X, Y]`, loop enabled, and an idle
transport at each tick: three consecutive scheduler ticks start playback
of X, then Y, then X; each tick pops the head, re-appends it to the tail,
and sets `now_playing`, so pending has length 2 again after every tick. -/
theorem C3_loop_three_ticks (X Y : String) (np : Option String) :
    play_queue idleTransport [(0, ⟨[X, Y], np, true⟩)] =
      ([(0, ⟨[Y, X], some X, true⟩)], [(0, X)], none) ∧
    play_queue idleTransport [(0, ⟨[Y, X], some X, true⟩)] =
      ([(0, ⟨[X, Y], some Y, true⟩)], [(0, Y)], none) ∧
    play_queue idleTransport [(0, ⟨[X, Y], some Y, true⟩)] =
      ([(0, ⟨[Y, X], some X, true⟩)], [(0, X)], none) :=
  ⟨rfl, rfl, rfl⟩

/-- Claim C4: `get_video` performs one lookup, retries exactly once when
the response carries a (truthy) embedded error field, succeeds exactly
when the first or the second lookup comes back without such an error
field, and otherwise propagates the second lookup's `BadResponseError`. -/
theorem C4_retry_once (r1 r2 : VideoResp) :
    ((get_video r1 r2).2 = if (truthyError r1).isSome then 2 else 1) ∧
    (isOkE (get_video r1 r2).1 =
      ((truthyError r1).isNone || (truthyError r2).isNone)) ∧
    (∀ e1 e2, truthyError r1 = some e1 → truthyError r2 = some e2 →
      (get_video r1 r2).1 = .error ("Error fetching video: " ++ e2)) := by
  cases h1 : truthyError r1 with
  | none =>
    refine ⟨?_, ?_, ?_⟩
    · simp [get_video, get_video_inner, h1]
    · simp [get_video, get_video_inner, h1, isOkE]
    · intro e1 e2 he1 he2; exact Option.noConfusion he1
  | some e =>
    cases h2 : truthyError r2 with
    | none =>
      refine ⟨?_, ?_, ?_⟩
      · simp [get_video, get_video_inner, h1]
      · simp [get_video, get_video_inner, h1, h2, isOkE]
      · intro e1 e2 he1 he2; exact Option.noConfusion he2
    | some f =>
      refine ⟨?_, ?_, ?_⟩
      · simp [get_video, get_video_inner, h1]
      · simp [get_video, get_video_inner, h1, h2, isOkE]
      · intro e1 e2 he1 he2
        injection he2 with hfe
        subst hfe
        simp [get_video, get_video_inner, h1, h2]

/-- Claim C4, witness: both lookups answer with an embedded error; the
overall call propagates the failure after exactly two lookups. -/
theorem C4_retry_once_witness :
    (get_video ⟨some "a", "p"⟩ ⟨some "b", "q"⟩).1 =
      .error ("Error fetching video: " ++ "b") :=
  (C4_retry_once ⟨some "a", "p"⟩ ⟨some "b", "q"⟩).2.2 "a" "b" (by decide) (by decide)

/-- For a newline-free block `q` in front of the canonical suffix, the
greedy rightmost-first backtracking of `.+` captures exactly `abc123`. -/
theorem invRest_append (q : List Char) (hq : ('\n' : Char) ∉ q) :
    invRest (q ++ ("watch?v=abc123".toList)) = some ("abc123".toList) := by
  induction q with
  | nil => decide
  | cons c cs ih =>
    have hc : ¬ c = '\n' := fun h => hq (by simp [h])
    have hcs : ('\n' : Char) ∉ cs := fun h => hq (List.mem_cons_of_mem c h)
    show (match (if c = '\n' then none
        else invRest (cs ++ ("watch?v=abc123".toList))) with
      | some b => some b
      | none => vTail (c :: (cs ++ ("watch?v=abc123".toList)))) =
      some ("abc123".toList)
    rw [if_neg hc, ih hcs]

/-- A canonical watch URL — any nonempty newline-free text followed by
`watch?v=abc123` — is resolved by INVIDIOUS_ID_RE to the id `abc123`. -/
theorem invidiousMatch_canonical (p : String) (hp : p ≠ "")
    (hn : ('\n' : Char) ∉ p.toList) :
    invidiousMatch (p ++ "watch?v=abc123") = some "abc123" := by
  obtain ⟨l⟩ := p
  cases l with
  | nil => exact absurd rfl hp
  | cons c cs =>
    have hc : ¬ c = '\n' := fun h => hn (by simp [String.toList, h])
    have hcs : ('\n' : Char) ∉ cs := by
      intro h
      exact hn (by simp [String.toList]; exact Or.inr h)
    have hdata : (String.mk (c :: cs) ++ "watch?v=abc123").toList =
        c :: (cs ++ ("watch?v=abc123".toList)) := by
      simp [String.toList, String.data_append]
    simp only [invidiousMatch, hdata]
    rw [if_neg hc, invRest_append cs hcs]
    rfl

/-- Claim C5: `to_invidious_id` tries the three matchers in order and the
first match wins; when none match it returns `None` (no exception); a
canonical watch URL ending in `watch?v=abc123` resolves directly to
`abc123`, with no third-party (`viaTrack`) hand-off. -/
theorem C5_resolution_order (url p : String) (hp : p ≠ "")
    (hn : ('\n' : Char) ∉ p.toList) :
    (∀ i, invidiousMatch url = some i → to_invidious_id url = .direct i) ∧
    (∀ i, invidiousMatch url = none → youtubeMatch url = some i →
      to_invidious_id url = .direct i) ∧
    (∀ t, invidiousMatch url = none → youtubeMatch url = none →
      spotifyMatch url = some t → to_invidious_id url = .viaTrack t) ∧
    (invidiousMatch url = none → youtubeMatch url = none →
      spotifyMatch url = none → to_invidious_id url = .invalid) ∧
    to_invidious_id (p ++ "watch?v=abc123") = .direct "abc123" := by
  refine ⟨?_, ?_, ?_, ?_, ?_⟩
  · intro i h; simp [to_invidious_id, h]
  · intro i h1 h2; simp [to_invidious_id, h1, h2]
  · intro t h1 h2 h3; simp [to_invidious_id, h1, h2, h3]
  · intro h1 h2 h3; simp [to_invidious_id, h1, h2, h3]
  · simp [to_invidious_id, invidiousMatch_canonical p hp hn]

/-- Claim C5, witness: the canonical scenario at a concrete URL. -/
theorem C5_resolution_order_witness :
    to_invidious_id ("https://www.youtube.com/" ++ "watch?v=abc123") =
      .direct "abc123" :=
  (C5_resolution_order "x" "https://www.youtube.com/" (by decide)
    (by decide)).2.2.2.2

/-- Claim C6 counterexample: a channel whose player exists with an empty
pending queue and `n = 1 ≥ 0 = len(pending)`. The code takes the
`if not player.queue` early return: pending stays empty, but the caller is
sent the "Nothing is currently playing" notice — the spec's
`NoActiveSession` error kind — rather than the error-free skip
acknowledgement the claim demands. -/
theorem C6_counterexample :
    skip (some ⟨[], none, false⟩) 1 =
      (some ⟨[], none, false⟩, SkipReply.nothingPlaying) ∧
    SkipReply.nothingPlaying ≠ SkipReply.skipped 1 := by
  exact ⟨rfl, by decide⟩

/-- Claim C6 as amended: for an existing player, `skip` with
`n ≥ len(pending) ≥ 1` empties pending and acknowledges without error;
with `len(pending) = 0` pending stays empty but the command answers the
"Nothing is currently playing" (`NoActiveSession`) notice instead of
performing a skip. -/
theorem C6_skip_overlong (p : ChannelPlayer) (n : Int)
    (hn : (p.queue.length : Int) ≤ n) :
    (p.queue ≠ [] →
      skip (some p) n = (some { p with queue := [] }, .skipped n)) ∧
    (p.queue = [] → skip (some p) n = (some p, .nothingPlaying)) := by
  constructor
  · intro hne
    have h0 : 0 ≤ n := le_trans (Int.ofNat_nonneg _) hn
    have hdrop : sliceFrom p.queue n = [] := by
      rw [sliceFrom, if_pos h0]
      refine List.drop_eq_nil_of_le ?_
      have := Int.toNat_le_toNat hn
      simpa using this
    simp only [skip, if_neg hne, hdrop]
    have htake : sliceTo ([] : List String) n = [] := by
      rw [sliceTo]
      split <;> simp
    rw [htake]
    simp
  · intro he
    simp [skip, he]

/-- Claim C6 as amended, witness: two pending items, five steps. -/
theorem C6_skip_overlong_witness :
    skip (some ⟨["a", "b"], none, true⟩) 5 =
      (some ⟨[], none, true⟩, .skipped 5) :=
  (C6_skip_overlong ⟨["a", "b"], none, true⟩ 5 (by decide)).1 (by decide)

/-- Claim C7 counterexample: transport whose `play` call always raises;
the registry snapshot holds two idle channels, each with one pending item.
The tick aborts at the first channel: the exception propagates, no
playback command is issued for channel 2 and its state is untouched —
contradicting the claimed isolation ("the tick still processes every
remaining channel"). -/
theorem C7_counterexample :
    play_queue ⟨fun _ => false, fun _ => false, fun _ => true, fun _ => false⟩
        [(1, ⟨["a"], none, false⟩), (2, ⟨["b"], none, false⟩)] =
      ([(1, ⟨[], some "a", false⟩), (2, ⟨["b"], none, false⟩)], [],
        some "play raised") ∧
    (2, "b") ∉ (play_queue
        ⟨fun _ => false, fun _ => false, fun _ => true, fun _ => false⟩
        [(1, ⟨["a"], none, false⟩), (2, ⟨["b"], none, false⟩)]).2.1 := by
  exact ⟨rfl, by decide⟩

/-- Claim C7 as amended: a channel processing failure is NOT isolated.
When an idle channel's `play` call raises, the exception propagates out of
the `play_queue` for-loop (there is no per-channel handler): the tick
aborts, and every channel after the failing one in the snapshot is left
unprocessed, with no playback command issued for it this tick. -/
theorem C7_tick_aborts (t : Transport) (gid : Nat) (p : ChannelPlayer)
    (v : String) (q : List String) (rest : List (Nat × ChannelPlayer))
    (hb : (t.reportsPlaying gid || t.reportsPaused gid) = false)
    (hq : p.queue = v :: q) (hp : t.playOk gid = false) :
    play_queue t ((gid, p) :: rest) =
      ((gid,
          { p with
              queue := (if p.loop then q ++ [v] else q),
              nowPlaying := some v }) :: rest, [], some "play raised") := by
  simp only [play_queue, hb, hq, hp]
  simp

/-- Claim C7 as amended, witness: the failing channel followed by one
untouched channel. -/
theorem C7_tick_aborts_witness :
    play_queue ⟨fun _ => false, fun _ => false, fun _ => true, fun _ => false⟩
        [(3, ⟨["x"], none, true⟩), (4, ⟨["y"], none, false⟩)] =
      ([(3, ⟨["x"], some "x", true⟩), (4, ⟨["y"], none, false⟩)], [],
        some "play raised") :=
  C7_tick_aborts ⟨fun _ => false, fun _ => false, fun _ => true, fun _ => false⟩
    3 ⟨["x"], none, true⟩ "x" [] [(4, ⟨["y"], none, false⟩)] rfl rfl rfl

/-- Claim C8 counterexample: metadata whose only adaptive format is
video-typed. `get_audio_url` fails through the bare builtin ValueError
raised by `max` on the empty candidate generator — an unnamed failure
that is not an instance of the module's named `BadResponseError` class
(so the `play` handler's `except BadResponseError` does not catch it),
contradicting "fails with NoAudioFormat and not in some other, unnamed
way". -/
theorem C8_counterexample :
    get_audio_url ⟨"vid", [⟨"video/mp4", 1000, 18⟩]⟩
        (fun _ _ => ⟨true, "", "u"⟩) =
      .error (.valueError "max() arg is an empty sequence") ∧
    isNamedFailure (get_audio_url ⟨"vid", [⟨"video/mp4", 1000, 18⟩]⟩
        (fun _ _ => ⟨true, "", "u"⟩)) = false := by
  constructor <;> decide

/-- Claim C8 as amended: among the formats whose media type starts with
"audio/", `get_audio_url` selects one with maximal bitrate (the first such,
by Python `max`) and requests the playable URL for its `(videoId, itag)`
pair; when no audio format exists it fails with the anonymous builtin
empty-sequence ValueError from `max`, not with a named error of the
module's `BadResponseError` class. -/
theorem C8_audio_negotiation (video : Video)
    (fetch : String → Nat → FetchResult) :
    (audioFmts video = [] →
      get_audio_url video fetch =
        .error (.valueError "max() arg is an empty sequence") ∧
      isNamedFailure (get_audio_url video fetch) = false) ∧
    (∀ best, pyMax (fun f => f.bitrate) (audioFmts video) = some best →
      startsWith "audio/" best.type = true ∧
      (∀ f ∈ audioFmts video, f.bitrate ≤ best.bitrate) ∧
      get_audio_url video fetch =
        (if (fetch video.videoId best.itag).ok then
          .ok (fetch video.videoId best.itag).url
        else .error (.badResponse ("Error fetching audio: " ++
          (fetch video.videoId best.itag).reason)))) := by
  constructor
  · intro h
    constructor
    · simp [get_audio_url, h, pyMax]
    · simp [get_audio_url, h, pyMax, isNamedFailure]
  · intro best hb
    obtain ⟨hmem, hmax⟩ := pyMax_spec (fun f => f.bitrate) (audioFmts video)
      best hb
    refine ⟨?_, hmax, ?_⟩
    · exact (List.mem_filter.mp hmem).2
    · simp only [get_audio_url, hb]

/-- Claim C8 as amended, witness: a no-audio metadata object. -/
theorem C8_audio_negotiation_witness :
    get_audio_url ⟨"v", []⟩ (fun _ _ => ⟨true, "", "u"⟩) =
      .error (.valueError "max() arg is an empty sequence") ∧
    isNamedFailure (get_audio_url ⟨"v", []⟩ (fun _ _ => ⟨true, "", "u"⟩)) =
      false :=
  (C8_audio_negotiation ⟨"v", []⟩ (fun _ _ => ⟨true, "", "u"⟩)).1 rfl

/-- Claim C9 counterexample: a two-artist track. The code joins artist
names with single spaces (`" ".join(...)`), so the query is
"Song by A B", not the comma-separated "Song by A, B" the claim states. -/
theorem C9_counterexample :
    spotifySearchQuery ⟨"Song", [⟨"A"⟩, ⟨"B"⟩]⟩ = "Song by A B" ∧
    ("Song by A B" : String) ≠ "Song by A, B" := by
  exact ⟨by decide, by decide⟩

/-- Claim C9 as amended: the query is the track name, the word "by", and
the artist names separated by single spaces; for the single-artist track
named "Song" by "Artist" the query is exactly "Song by Artist", which the
resolver then feeds to the search, taking the first result. -/
theorem C9_query_shape (n a b : String) :
    spotifySearchQuery ⟨n, [⟨a⟩]⟩ = n ++ " by " ++ a ∧
    spotifySearchQuery ⟨n, [⟨a⟩, ⟨b⟩]⟩ = n ++ " by " ++ (a ++ " " ++ b) ∧
    spotifySearchQuery ⟨"Song", [⟨"Artist"⟩]⟩ = "Song by Artist" ∧
    (∀ (track : Track) (search : String → List String),
      spotify_to_youtube_id track search =
        (search (spotifySearchQuery track)).head?) :=
  ⟨rfl, rfl, by decide, fun _ _ => rfl⟩

/-- Claim C10: for a nonempty pending queue, `skip(channelId, 0)` leaves
everything unchanged (whatever the loop flag), and `skip(channelId, -k)`
with `0 < k ≤ len(pending)` keeps exactly the last `k` pending items
(Python slice `queue[-k:]`), whatever the loop flag — the loop re-append
slice `queue[:-k]` of the already-shortened queue is always empty. -/
theorem C10_skip_nonpositive (p : ChannelPlayer) (k : Nat)
    (hne : p.queue ≠ []) (hk : 0 < k) (hkle : k ≤ p.queue.length) :
    skip (some p) 0 = (some p, .skipped 0) ∧
    skip (some p) (-(k : Int)) =
      (some { p with queue := p.queue.drop (p.queue.length - k) },
        .skipped (-(k : Int))) := by
  obtain ⟨q, np, lp⟩ := p
  dsimp only at hne hkle ⊢
  constructor
  · have h1 : sliceFrom q (0 : Int) = q := by simp [sliceFrom]
    have h2 : sliceTo q (0 : Int) = [] := by simp [sliceTo]
    simp [skip, hne, h1, h2]
  · have hneg : ¬ (0 : Int) ≤ -(k : Int) := by omega
    have h1 : sliceFrom q (-(k : Int)) = q.drop (q.length - k) := by
      rw [sliceFrom, if_neg hneg]
      congr 1
      omega
    have hlen : (q.drop (q.length - k)).length = k := by
      rw [List.length_drop]
      omega
    have h2 : sliceTo (q.drop (q.length - k)) (-(k : Int)) = [] := by
      rw [sliceTo, if_neg hneg, hlen]
      have : ((k : Int) + -(k : Int)).toNat = 0 := by omega
      rw [this]
      simp
    simp [skip, hne, h1, h2]

/-- Claim C10, witness: pending `["a","b","c"]`, loop on, steps 0 and -2. -/
theorem C10_skip_nonpositive_witness :
    skip (some ⟨["a", "b", "c"], none, true⟩) 0 =
      (some ⟨["a", "b", "c"], none, true⟩, .skipped 0) ∧
    skip (some ⟨["a", "b", "c"], none, true⟩) (-(2 : Int)) =
      (some ⟨["b", "c"], none, true⟩, .skipped (-(2 : Int))) :=
  C10_skip_nonpositive ⟨["a", "b", "c"], none, true⟩ 2 (by decide) (by decide)
    (by decide)

end PolyPlayer
